import Mathlib

/-!
Verification of the per-user contacts REST backend (`src/`): a shallow
embedding of the data model (`src/database/models.py`), the contact
repository (`src/repository/contacts.py`), the contact routes
(`src/routes/contacts.py`) and the authentication service
(`src/services/auth.py`), together with theorems settling the stated
properties of the specification.

The contacts table is embedded as a `List Contact`; SQLAlchemy queries
become list filters, `first()` becomes `List.find?`, and the ORM
mutation/deletion of a fetched row becomes replacement/removal of the
first matching list element.  `updated_at` is maintained by the database
itself (`onupdate=func.now()`) and is not part of the embedded record.
Python `datetime.date` values are embedded as a `Date` structure with
proleptic Gregorian day arithmetic, matching `date + timedelta(days=n)`.
-/

/-- Calendar date, embedding Python `datetime.date`. -/
structure Date where
  year : Nat
  month : Nat
  day : Nat
deriving DecidableEq, Repr

/-- Gregorian leap-year rule used by Python `datetime`. -/
def Date.isLeap (y : Nat) : Bool :=
  (y % 4 == 0 && y % 100 != 0) || y % 400 == 0

/-- Number of days in a month of a given year (Gregorian calendar). -/
def Date.daysInMonth (y m : Nat) : Nat :=
  if m == 2 then (if Date.isLeap y then 29 else 28)
  else if m == 4 || m == 6 || m == 9 || m == 11 then 30
  else 31

/-- The day after `d` in the Gregorian calendar. -/
def Date.next (d : Date) : Date :=
  if d.day < Date.daysInMonth d.year d.month then
    { d with day := d.day + 1 }
  else if d.month < 12 then
    { year := d.year, month := d.month + 1, day := 1 }
  else
    { year := d.year + 1, month := 1, day := 1 }

/-- `d + timedelta(days = n)` for a Python `date`. -/
def Date.addDays (d : Date) : Nat → Date
  | 0 => d
  | n + 1 => (Date.addDays d n).next

/-- Row of the `users` table (`src/database/models.py`, class `User`). -/
structure User where
  id : Nat
  username : String
  email : String
  password : String
  created_at : Nat
  refresh_token : Option String
  avatar : Option String
  confirmed : Bool
deriving DecidableEq, Repr

/-- Row of the `contacts` table (`src/database/models.py`, class `Contact`).
`updated_at` is database-maintained and not modelled. -/
structure Contact where
  id : Nat
  first_name : String
  last_name : String
  email : String
  phone : String
  birthday : Date
  created_at : Nat
  user_id : Nat
deriving DecidableEq, Repr

/-- Request body for contact creation/update
(`src/schemas.py`, class `ContactModel`). -/
structure ContactModel where
  first_name : String
  last_name : String
  email : String
  phone : String
  birthday : Date
deriving DecidableEq, Repr

/-! ## Contact repository (`src/repository/contacts.py`) -/

/-- `get_contacts`: owner-scoped listing with SQL OFFSET/LIMIT
(`db.query(Contact).filter_by(user_id=user.id).limit(limit).offset(offset).all()`). -/
def get_contacts (limit offset : Nat) (user : User) (db : List Contact) :
    List Contact :=
  (((db.filter fun c => c.user_id == user.id).drop offset).take limit)

/-- `get_contact_by_id`: first contact with the caller's `user_id` and the
given id (`filter(and_(Contact.user_id == user.id, Contact.id == contact_id)).first()`). -/
def get_contact_by_id (contact_id : Nat) (user : User) (db : List Contact) :
    Option Contact :=
  db.find? fun c => c.user_id == user.id && c.id == contact_id

/-- `get_contact_by_email`: first contact with the caller's `user_id` and the
given email. -/
def get_contact_by_email (contact_email : String) (user : User)
    (db : List Contact) : Option Contact :=
  db.find? fun c => c.user_id == user.id && c.email == contact_email

/-- Outcome of a `db.commit()`: the flushed write persisted, or the database
rejected it (`IntegrityError`), which no repository function catches — the
exception propagates and the transaction leaves the table unchanged. -/
inductive DbResult (α : Type) where
  | ok : α → DbResult α
  | integrityError : DbResult α
deriving DecidableEq, Repr

/-- The row `Contact(**body.dict(), user=user)` builds: the five body fields,
the caller as owner, `newId` the primary key and `now` the `created_at`
default assigned by the database. -/
def Contact.fromBody (body : ContactModel) (user : User) (newId now : Nat) :
    Contact :=
  { id := newId
    first_name := body.first_name
    last_name := body.last_name
    email := body.email
    phone := body.phone
    birthday := body.birthday
    created_at := now
    user_id := user.id }

/-- `create_contact`: insert a new row built from the body, owned by `user`,
and commit.  `models.py` declares `contacts.email` UNIQUE (globally), so the
commit raises `IntegrityError` — persisting nothing — when any stored row
already carries the body's email; otherwise the row is appended. -/
def create_contact (body : ContactModel) (user : User) (newId now : Nat)
    (db : List Contact) : DbResult Contact × List Contact :=
  let c := Contact.fromBody body user newId now
  if db.any fun x => x.email == body.email then
    (.integrityError, db)
  else
    (.ok c, db ++ [c])

/-- The field assignments in the body of `update`: the fetched row gets the
five request-body fields; every other column keeps its value. -/
def applyBody (body : ContactModel) (c : Contact) : Contact :=
  { c with
    first_name := body.first_name
    last_name := body.last_name
    email := body.email
    phone := body.phone
    birthday := body.birthday }

/-- The session-level effect of `update`'s field assignments once flushed:
the five body fields are written into the first matching row, exactly the
single row the ORM fetched via `first()`. -/
def updateRows (contact_id : Nat) (body : ContactModel) (user : User) :
    List Contact → Option Contact × List Contact
  | [] => (none, [])
  | c :: rest =>
    if c.user_id == user.id && c.id == contact_id then
      (some (applyBody body c), applyBody body c :: rest)
    else
      let r := updateRows contact_id body user rest
      (r.1, c :: r.2)

/-- The stored rows other than the first owned match: the rows the UNIQUE
constraint on `contacts.email` compares an UPDATE of that match against. -/
def rowsExcept (contact_id : Nat) (user : User) :
    List Contact → List Contact
  | [] => []
  | c :: rest =>
    if c.user_id == user.id && c.id == contact_id then rest
    else c :: rowsExcept contact_id user rest

/-- `update`: fetch the caller's contact by id; if absent, return `None`
without touching the table (no commit is executed).  If present, assign the
five body fields and commit: when the new email collides with any other
stored row, the UNIQUE constraint on `contacts.email` (`models.py`) makes
the commit raise `IntegrityError` and the table keeps its old rows;
otherwise the first matching row is rewritten and returned. -/
def update (contact_id : Nat) (body : ContactModel) (user : User)
    (db : List Contact) : DbResult (Option Contact) × List Contact :=
  match get_contact_by_id contact_id user db with
  | none => (.ok none, db)
  | some _ =>
    if (rowsExcept contact_id user db).any fun x => x.email == body.email then
      (.integrityError, db)
    else
      let r := updateRows contact_id body user db
      (.ok r.1, r.2)

/-- `remove`: fetch the caller's contact by id; if present, delete that row
and commit; otherwise leave the table untouched. -/
def remove (contact_id : Nat) (user : User) :
    List Contact → Option Contact × List Contact
  | [] => (none, [])
  | c :: rest =>
    if c.user_id == user.id && c.id == contact_id then
      (some c, rest)
    else
      let r := remove contact_id user rest
      (r.1, c :: r.2)

/-- `get_contact_by_first_name`: all of the caller's contacts with the given
first name. -/
def get_contact_by_first_name (contact_first_name : String) (user : User)
    (db : List Contact) : List Contact :=
  db.filter fun c => c.user_id == user.id && c.first_name == contact_first_name

/-- `get_contact_by_last_name`: all of the caller's contacts with the given
last name. -/
def get_contact_by_last_name (contact_last_name : String) (user : User)
    (db : List Contact) : List Contact :=
  db.filter fun c => c.user_id == user.id && c.last_name == contact_last_name

/-- `get_birthday`: the caller's contacts whose birthday has day-of-month
between `today.day` and `(today + 7 days).day` and month equal to
`today.month` (`extract('day', ...)` / `extract('month', ...)` comparisons). -/
def get_birthday (today : Date) (user : User) (db : List Contact) :
    List Contact :=
  let next_week := today.addDays 7
  db.filter fun c =>
    c.user_id == user.id && today.day ≤ c.birthday.day &&
      c.birthday.day ≤ next_week.day && c.birthday.month == today.month

/-! ## Contact routes (`src/routes/contacts.py`)

A handler either returns a value or raises an `HTTPException` with a
status code; handlers that touch the table also return the table
afterwards. -/

/-- Result of an HTTP handler: a value, or an `HTTPException` status. -/
inductive RouteResult (α : Type) where
  | ok : α → RouteResult α
  | error : Nat → RouteResult α
deriving DecidableEq, Repr

/-- `create_contact` route: 409 if the caller already owns a contact with the
body's email, otherwise create and return the new contact.  An
`IntegrityError` escaping the repository (another user's row holds the
email) is uncaught, so the framework answers 500. -/
def create_contact_route (body : ContactModel) (current_user : User)
    (newId now : Nat) (db : List Contact) :
    RouteResult Contact × List Contact :=
  match get_contact_by_email body.email current_user db with
  | some _ => (.error 409, db)
  | none =>
    let r := create_contact body current_user newId now db
    match r.1 with
    | .ok c => (.ok c, r.2)
    | .integrityError => (.error 500, r.2)

/-- `update_contact` route: 404 when the repository `update` returns `None`;
an `IntegrityError` escaping the repository is uncaught, so the framework
answers 500. -/
def update_contact_route (body : ContactModel) (contact_id : Nat)
    (current_user : User) (db : List Contact) :
    RouteResult Contact × List Contact :=
  let r := update contact_id body current_user db
  match r.1 with
  | .ok none => (.error 404, r.2)
  | .ok (some c) => (.ok c, r.2)
  | .integrityError => (.error 500, r.2)

/-- `remove_contact` route: 404 when the repository `remove` returns `None`. -/
def remove_contact_route (contact_id : Nat) (current_user : User)
    (db : List Contact) : RouteResult Contact × List Contact :=
  let r := remove contact_id current_user db
  match r.1 with
  | none => (.error 404, r.2)
  | some c => (.ok c, r.2)

/-- `search_contact_7_days_birthday` route: 404 when the repository query
returns fewer than one contact. -/
def search_contact_7_days_birthday (today : Date) (current_user : User)
    (db : List Contact) : RouteResult (List Contact) :=
  let contacts := get_birthday today current_user db
  if contacts.length < 1 then .error 404 else .ok contacts

/-- `search_contact_by_first_name` route: 404 when the repository query
returns fewer than one contact. -/
def search_contact_by_first_name (contact_first_name : String)
    (current_user : User) (db : List Contact) : RouteResult (List Contact) :=
  let contacts := get_contact_by_first_name contact_first_name current_user db
  if contacts.length < 1 then .error 404 else .ok contacts

/-- `search_contact_by_last_name` route: 404 when the repository query
returns fewer than one contact. -/
def search_contact_by_last_name (contact_last_name : String)
    (current_user : User) (db : List Contact) : RouteResult (List Contact) :=
  let contacts := get_contact_by_last_name contact_last_name current_user db
  if contacts.length < 1 then .error 404 else .ok contacts

/-! ## Authentication service (`src/services/auth.py`)

JWTs are embedded as the payload together with the signing key and
algorithm; `jwt.decode` succeeds exactly when the verifying key and
algorithm match and the token is unexpired, and otherwise raises
`JWTError`.  Payload dictionaries carry the claims the service reads:
`sub`, `scope`, `iat`, `exp` (a claim may be absent). -/

/-- JWT payload claims read by the service. -/
structure Payload where
  sub : Option String
  scope : Option String
  iat : Nat
  exp : Nat
deriving DecidableEq, Repr

/-- A signed token: payload plus signing key and algorithm. -/
structure Token where
  payload : Payload
  key : String
  alg : String
deriving DecidableEq, Repr

/-- `jwt.encode(to_encode, key, algorithm)`. -/
def jwt_encode (p : Payload) (key alg : String) : Token :=
  { payload := p, key := key, alg := alg }

/-- `jwt.decode(token, key, algorithms=[alg])` at time `now`: the payload when
signature and algorithm check out and the token is unexpired, else `none`
(the `JWTError` branch). -/
def jwt_decode (t : Token) (key alg : String) (now : Nat) : Option Payload :=
  if t.key = key ∧ t.alg = alg ∧ now < t.payload.exp then
    some t.payload
  else
    none

/-- `Auth.SECRET_KEY` (from `src/conf/config.py` settings, opaque here). -/
def SECRET_KEY : String := "settings.secret_key"

/-- `Auth.ALGORITHM` (from `src/conf/config.py` settings, opaque here). -/
def ALGORITHM : String := "settings.algorithm"

/-- Outcome of an auth-service call: a value, an `HTTPException` with a
status code and detail, or an exception the service does not catch
(a `KeyError` from a missing claim escapes the `except JWTError` handler). -/
inductive AuthResult (α : Type) where
  | ok : α → AuthResult α
  | httpError : Nat → String → AuthResult α
  | uncaught : String → AuthResult α
deriving DecidableEq, Repr

/-- `Auth.create_access_token` for a data dict `{'sub': sub}`: sets `iat`,
`exp` (given delta in seconds, or 15 minutes) and `scope: 'access_token'`. -/
def create_access_token (sub : Option String) (expires_delta : Option Nat)
    (now : Nat) : Token :=
  let expire := match expires_delta with
    | some s => now + s
    | none => now + 15 * 60
  jwt_encode { sub := sub, scope := some "access_token", iat := now, exp := expire }
    SECRET_KEY ALGORITHM

/-- `Auth.create_refresh_token` for a data dict `{'sub': sub}`: sets `iat`,
`exp` (given delta in seconds, or 7 days) and `scope: 'refresh_token'`. -/
def create_refresh_token (sub : Option String) (expires_delta : Option Nat)
    (now : Nat) : Token :=
  let expire := match expires_delta with
    | some s => now + s
    | none => now + 7 * 86400
  jwt_encode { sub := sub, scope := some "refresh_token", iat := now, exp := expire }
    SECRET_KEY ALGORITHM

/-- `Auth.create_email_token`: sets `iat`, `exp` (3 days) and
`scope: 'email_token'`. -/
def create_email_token (sub : Option String) (now : Nat) : Token :=
  jwt_encode { sub := sub, scope := some "email_token", iat := now, exp := now + 3 * 86400 }
    SECRET_KEY ALGORITHM

/-- Modelled from the spec: `src/repository/users.py` is not present in the
sources; §4.3 specifies a get-by-email user lookup, embedded as the first
user with the given email. -/
def get_user_by_email (email : String) (users : List User) : Option User :=
  users.find? fun u => u.email == email

/-- `Auth.get_current_user`: decode the bearer token; on `JWTError`, a scope
other than `'access_token'` (`payload.get('scope')`), a missing `sub`, or an
unknown user, raise 401; otherwise return the user. -/
def get_current_user (token : Token) (now : Nat) (users : List User) :
    AuthResult User :=
  match jwt_decode token SECRET_KEY ALGORITHM now with
  | none => .httpError 401 "Could not validate credentials"
  | some payload =>
    if payload.scope = some "access_token" then
      match payload.sub with
      | none => .httpError 401 "Could not validate credentials"
      | some email =>
        match get_user_by_email email users with
        | none => .httpError 401 "Could not validate credentials"
        | some user => .ok user
    else
      .httpError 401 "Could not validate credentials"

/-- `Auth.decode_refresh_token`: decode; `payload['scope']` must be
`'refresh_token'` (a missing claim raises `KeyError`, uncaught), then return
`payload['sub']`; wrong scope raises 401; `JWTError` raises 401. -/
def decode_refresh_token (refresh_token : Token) (now : Nat) :
    AuthResult String :=
  match jwt_decode refresh_token SECRET_KEY ALGORITHM now with
  | none => .httpError 401 "Could not validate credentials"
  | some payload =>
    match payload.scope with
    | none => .uncaught "KeyError"
    | some s =>
      if s = "refresh_token" then
        match payload.sub with
        | none => .uncaught "KeyError"
        | some email => .ok email
      else
        .httpError 401 "Invalid scope for token"

/-- `Auth.get_email_from_token`: decode; if `payload['scope']` is
`'email_token'` return `payload['sub']`; on any other scope the function
falls through and returns `None`; `JWTError` raises 422.  The returned
`Option String` is the Python return value (`None` on fall-through). -/
def get_email_from_token (token : Token) (now : Nat) :
    AuthResult (Option String) :=
  match jwt_decode token SECRET_KEY ALGORITHM now with
  | none => .httpError 422 "Invalid token for email verification"
  | some payload =>
    match payload.scope with
    | none => .uncaught "KeyError"
    | some s =>
      if s = "email_token" then
        match payload.sub with
        | none => .uncaught "KeyError"
        | some email => .ok (some email)
      else
        .ok none

/-! ## Invariants and concrete data -/

/-- Per-user email uniqueness: no two rows of the contacts table share both
owner and email (spec §3, invariant "a user can have at most one Contact per
email"). -/
def uniqueEmailPerUser (db : List Contact) : Prop :=
  db.Pairwise fun a b => a.user_id = b.user_id → a.email ≠ b.email

instance (db : List Contact) : Decidable (uniqueEmailPerUser db) := by
  unfold uniqueEmailPerUser; infer_instance

/-- Sample user with id 1. -/
def userA : User :=
  ⟨1, "ann", "ann@example.com", "hash1", 0, none, none, true⟩

/-- Sample user with id 2. -/
def userB : User :=
  ⟨2, "bob", "bob@example.com", "hash2", 0, none, none, true⟩

/-- Contact 1, owned by user 1. -/
def contactA : Contact :=
  ⟨1, "Ann", "Lee", "a@x.com", "+100", ⟨1990, 5, 10⟩, 0, 1⟩

/-- Contact 2, owned by user 1. -/
def contactB : Contact :=
  ⟨2, "Bob", "Kim", "b@x.com", "+200", ⟨1991, 6, 2⟩, 0, 1⟩

/-- Contact 3, owned by user 2. -/
def contactC : Contact :=
  ⟨3, "Cid", "Ray", "c@x.com", "+300", ⟨1992, 7, 3⟩, 0, 2⟩

/-- Request body carrying contact 1's email. -/
def bodyA : ContactModel :=
  ⟨"Ann", "Lee", "a@x.com", "+100", ⟨1990, 5, 10⟩⟩

/-- Request body with a fresh email. -/
def bodyD : ContactModel :=
  ⟨"Dee", "Fox", "d@x.com", "+400", ⟨1993, 8, 4⟩⟩

/-- Request body carrying contact 3's email (owned by user 2). -/
def bodyC : ContactModel :=
  ⟨"Cee", "Ray", "c@x.com", "+500", ⟨1994, 9, 5⟩⟩

/-- A contact operation as issued through the API: create via the route,
repository update, or repository remove. -/
inductive ContactOp where
  | createOp : ContactModel → User → Nat → Nat → ContactOp
  | updateOp : Nat → ContactModel → User → ContactOp
  | removeOp : Nat → User → ContactOp

/-- The table after one contact operation. -/
def applyOp (db : List Contact) : ContactOp → List Contact
  | .createOp body u newId now => (create_contact_route body u newId now db).2
  | .updateOp cid body u => (update cid body u db).2
  | .removeOp cid u => (remove cid u db).2

/-- The table after a sequence of contact operations. -/
def applyOps (db : List Contact) (ops : List ContactOp) : List Contact :=
  ops.foldl applyOp db

/-! ## Theorems -/

/-- C1: every contact-query operation of the repository (`get_contacts`,
`get_contact_by_id`, `get_contact_by_email`, `get_contact_by_first_name`,
`get_contact_by_last_name`, `get_birthday`) returns only contacts whose
`user_id` equals the calling user's id; no contact owned by another user is
ever returned. -/
theorem contact_queries_owner_scoped (user : User) (db : List Contact) :
    (∀ limit offset, ∀ c ∈ get_contacts limit offset user db,
      c.user_id = user.id) ∧
    (∀ cid c, get_contact_by_id cid user db = some c → c.user_id = user.id) ∧
    (∀ e c, get_contact_by_email e user db = some c → c.user_id = user.id) ∧
    (∀ fn, ∀ c ∈ get_contact_by_first_name fn user db,
      c.user_id = user.id) ∧
    (∀ nm, ∀ c ∈ get_contact_by_last_name nm user db,
      c.user_id = user.id) ∧
    (∀ today, ∀ c ∈ get_birthday today user db, c.user_id = user.id) := by
  refine ⟨?_, ?_, ?_, ?_, ?_, ?_⟩
  · intro limit offset c hc
    have h1 : c ∈ db.filter fun c => c.user_id == user.id :=
      List.drop_subset _ _ (List.take_subset _ _ hc)
    have h2 := (List.mem_filter.mp h1).2
    exact beq_iff_eq.mp h2
  · intro cid c hc
    have h2 := List.find?_some hc
    simp only [Bool.and_eq_true, beq_iff_eq] at h2
    exact h2.1
  · intro e c hc
    have h2 := List.find?_some hc
    simp only [Bool.and_eq_true, beq_iff_eq] at h2
    exact h2.1
  · intro fn c hc
    have h2 := (List.mem_filter.mp hc).2
    simp only [Bool.and_eq_true, beq_iff_eq] at h2
    exact h2.1
  · intro nm c hc
    have h2 := (List.mem_filter.mp hc).2
    simp only [Bool.and_eq_true, beq_iff_eq] at h2
    exact h2.1
  · intro today c hc
    have h2 := (List.mem_filter.mp hc).2
    simp only [Bool.and_eq_true, beq_iff_eq, decide_eq_true_eq] at h2
    exact h2.1.1.1

/-- C1 witness: with user 1's table `[contactA, contactC]`, the by-id query
returns `contactA`, which is owned by user 1. -/
theorem contact_queries_owner_scoped_witness :
    get_contact_by_id 1 userA [contactA, contactC] = some contactA ∧
    contactA.user_id = userA.id :=
  ⟨by decide,
   (contact_queries_owner_scoped userA [contactA, contactC]).2.1 1 contactA
     (by decide)⟩

/-- C7: `get_birthday` returns exactly the user's contacts whose birthday has
day-of-month between today's day and the day-of-month of `today + 7 days`,
in today's month — day/month field comparison, not full date arithmetic. -/
theorem get_birthday_characterization (today : Date) (user : User)
    (db : List Contact) (c : Contact) :
    c ∈ get_birthday today user db ↔
      c ∈ db ∧ c.user_id = user.id ∧ today.day ≤ c.birthday.day ∧
        c.birthday.day ≤ (today.addDays 7).day ∧
        c.birthday.month = today.month := by
  simp [get_birthday, List.mem_filter, Bool.and_eq_true, beq_iff_eq,
    decide_eq_true_eq, and_assoc]

/-- C7 witness: with today = 1990-05-08, contact 1 (birthday 1990-05-10) is
in the upcoming-birthday window. -/
theorem get_birthday_characterization_witness :
    contactA ∈ get_birthday ⟨1990, 5, 8⟩ userA [contactA, contactC] :=
  (get_birthday_characterization ⟨1990, 5, 8⟩ userA [contactA, contactC]
    contactA).mpr (by decide)

/-- C10: the birthday, first-name and last-name search routes answer 404
exactly when the repository query yields an empty list, and return the
non-empty list as-is otherwise. -/
theorem search_routes_empty_404 (today : Date) (fn nm : String) (user : User)
    (db : List Contact) :
    (search_contact_7_days_birthday today user db = .error 404 ↔
      get_birthday today user db = []) ∧
    (get_birthday today user db ≠ [] →
      search_contact_7_days_birthday today user db =
        .ok (get_birthday today user db)) ∧
    (search_contact_by_first_name fn user db = .error 404 ↔
      get_contact_by_first_name fn user db = []) ∧
    (get_contact_by_first_name fn user db ≠ [] →
      search_contact_by_first_name fn user db =
        .ok (get_contact_by_first_name fn user db)) ∧
    (search_contact_by_last_name nm user db = .error 404 ↔
      get_contact_by_last_name nm user db = []) ∧
    (get_contact_by_last_name nm user db ≠ [] →
      search_contact_by_last_name nm user db =
        .ok (get_contact_by_last_name nm user db)) := by
  refine ⟨?_, ?_, ?_, ?_, ?_, ?_⟩
  · rcases eq_or_ne (get_birthday today user db) [] with h | h <;>
      simp [search_contact_7_days_birthday, h, Nat.lt_one_iff,
        List.length_eq_zero]
  · intro h
    simp [search_contact_7_days_birthday, h, Nat.lt_one_iff,
      List.length_eq_zero]
  · rcases eq_or_ne (get_contact_by_first_name fn user db) [] with h | h <;>
      simp [search_contact_by_first_name, h, Nat.lt_one_iff,
        List.length_eq_zero]
  · intro h
    simp [search_contact_by_first_name, h, Nat.lt_one_iff,
      List.length_eq_zero]
  · rcases eq_or_ne (get_contact_by_last_name nm user db) [] with h | h <;>
      simp [search_contact_by_last_name, h, Nat.lt_one_iff,
        List.length_eq_zero]
  · intro h
    simp [search_contact_by_last_name, h, Nat.lt_one_iff,
      List.length_eq_zero]

/-- C10 witness: searching user 1's table for first name "Zed" yields the
empty list and the route answers 404. -/
theorem search_routes_empty_404_witness :
    get_contact_by_first_name "Zed" userA [contactA] = [] ∧
    search_contact_by_first_name "Zed" userA [contactA] = .error 404 :=
  ⟨by decide,
   ((search_routes_empty_404 ⟨2020, 1, 1⟩ "Zed" "x" userA
      [contactA]).2.2.1).mpr (by decide)⟩

/-- Helper: `remove` is the identity on the table and returns `None` when no
owned row matches. -/
theorem remove_of_not_found (cid : Nat) (user : User) :
    ∀ db : List Contact, get_contact_by_id cid user db = none →
      remove cid user db = (none, db) := by
  intro db
  induction db with
  | nil => intro _; rfl
  | cons c rest ih =>
    intro h
    cases hp : (c.user_id == user.id && c.id == cid) with
    | true =>
      rw [get_contact_by_id, List.find?_cons, hp] at h
      cases h
    | false =>
      have h2 : get_contact_by_id cid user rest = none := by
        rw [get_contact_by_id, List.find?_cons, hp] at h
        exact h
      simp [remove, hp, ih h2]

/-- C2: when no contact with the given id is owned by the calling user
(nonexistent or foreign id), repository `update` and `remove` return `None`
and leave the table unchanged, and the corresponding routes answer 404 with
the table unchanged. -/
theorem missing_contact_is_noop (cid : Nat) (body : ContactModel)
    (user : User) (db : List Contact)
    (h : get_contact_by_id cid user db = none) :
    update cid body user db = (.ok none, db) ∧
    remove cid user db = (none, db) ∧
    update_contact_route body cid user db = (.error 404, db) ∧
    remove_contact_route cid user db = (.error 404, db) := by
  have hu : update cid body user db = (.ok none, db) := by
    simp [update, h]
  have hr := remove_of_not_found cid user db h
  refine ⟨hu, hr, ?_, ?_⟩
  · simp [update_contact_route, hu]
  · simp [remove_contact_route, hr]

/-- C2 witness: contact id 3 belongs to user 2; for user 1, update and remove
return `None`/404 and leave the table `[contactA, contactC]` unchanged. -/
theorem missing_contact_is_noop_witness :
    get_contact_by_id 3 userA [contactA, contactC] = none ∧
    update 3 bodyD userA [contactA, contactC] =
      (.ok none, [contactA, contactC]) ∧
    remove_contact_route 3 userA [contactA, contactC] =
      (.error 404, [contactA, contactC]) := by
  have h : get_contact_by_id 3 userA [contactA, contactC] = none := by decide
  have H := missing_contact_is_noop 3 bodyD userA [contactA, contactC] h
  exact ⟨h, H.1, H.2.2.2⟩

/-- C3 counterexample: user 2 owns the only contact with email "c@x.com";
user 1 posting that email passes the caller-scoped 409 guard, but the INSERT
violates the global UNIQUE constraint on `contacts.email`: the route answers
500 and no contact is created — not the claimed creation. -/
theorem create_foreign_email_integrity_error :
    get_contact_by_email bodyC.email userA [contactC] = none ∧
    create_contact_route bodyC userA 5 0 [contactC] =
      (.error 500, [contactC]) := by
  decide

/-- C3 (amended): the create-contact route answers 409 and leaves the table
unchanged when the caller already owns a contact with the body's email; when
no stored contact of any user carries the body's email, the new contact
(owned by the caller, carrying the body's email) is created, returned and
appended; when the caller owns no such contact but another user's row holds
the email, the insert violates the global UNIQUE constraint on
`contacts.email`, the uncaught `IntegrityError` yields a 500 answer, and
nothing is added. -/
theorem create_contact_route_duplicate_check (body : ContactModel)
    (user : User) (newId now : Nat) (db : List Contact) :
    (∀ c, get_contact_by_email body.email user db = some c →
      create_contact_route body user newId now db = (.error 409, db)) ∧
    ((∀ x ∈ db, x.email ≠ body.email) →
      create_contact_route body user newId now db =
        (.ok (Contact.fromBody body user newId now),
          db ++ [Contact.fromBody body user newId now]) ∧
      (Contact.fromBody body user newId now).email = body.email ∧
      (Contact.fromBody body user newId now).user_id = user.id) ∧
    (get_contact_by_email body.email user db = none →
      (∃ x ∈ db, x.email = body.email) →
      create_contact_route body user newId now db = (.error 500, db)) := by
  refine ⟨?_, ?_, ?_⟩
  · intro c hc
    simp [create_contact_route, hc]
  · intro h
    have hfind : get_contact_by_email body.email user db = none := by
      rw [get_contact_by_email, List.find?_eq_none]
      intro x hx
      simp only [Bool.and_eq_true, beq_iff_eq, not_and]
      intro _
      exact h x hx
    have hany : (db.any fun x => x.email == body.email) = false := by
      rw [List.any_eq_false]
      intro x hx
      simpa using h x hx
    refine ⟨?_, rfl, rfl⟩
    simp [create_contact_route, hfind, create_contact, hany]
  · intro hfind hex
    have hany : (db.any fun x => x.email == body.email) = true := by
      rw [List.any_eq_true]
      obtain ⟨x, hx, he⟩ := hex
      exact ⟨x, hx, by simpa using he⟩
    simp [create_contact_route, hfind, create_contact, hany]

/-- C3 witness: user 1 already owns a contact with email "a@x.com"; posting a
body with that email answers 409 and leaves the table unchanged; a body with
the fresh email "d@x.com" is created and appended. -/
theorem create_contact_route_duplicate_check_witness :
    get_contact_by_email bodyA.email userA [contactA] = some contactA ∧
    create_contact_route bodyA userA 5 0 [contactA] =
      (.error 409, [contactA]) ∧
    contactA.email ≠ bodyD.email ∧
    create_contact_route bodyD userA 6 0 [contactA] =
      (.ok (Contact.fromBody bodyD userA 6 0),
        [contactA, Contact.fromBody bodyD userA 6 0]) :=
  ⟨by decide,
   (create_contact_route_duplicate_check bodyA userA 5 0 [contactA]).1
     contactA (by decide),
   by decide,
   ((create_contact_route_duplicate_check bodyD userA 6 0 [contactA]).2.1
     (by decide)).1⟩

/-- C4: a successfully decoded token whose scope claim is anything other than
`'access_token'` is rejected by `get_current_user` with 401, and one whose
scope claim is anything other than `'refresh_token'` is rejected by
`decode_refresh_token` with 401: neither verifier accepts a token of the
other scope. -/
theorem wrong_scope_token_rejected (t : Token) (now : Nat)
    (users : List User) (p : Payload) (s : String)
    (hdec : jwt_decode t SECRET_KEY ALGORITHM now = some p)
    (hscope : p.scope = some s) :
    (s ≠ "access_token" →
      get_current_user t now users =
        .httpError 401 "Could not validate credentials") ∧
    (s ≠ "refresh_token" →
      decode_refresh_token t now =
        .httpError 401 "Invalid scope for token") := by
  constructor
  · intro hs
    have hne : p.scope ≠ some "access_token" := by
      rw [hscope]; simpa using hs
    simp [get_current_user, hdec, hne]
  · intro hs
    simp [decode_refresh_token, hdec, hscope, hs]

/-- C4 witness: an email-confirmation token (scope `'email_token'`) is
rejected with 401 by both the access-token and the refresh-token verifier. -/
theorem wrong_scope_token_rejected_witness :
    jwt_decode (create_email_token (some "ann@example.com") 0)
        SECRET_KEY ALGORITHM 5 =
      some ⟨some "ann@example.com", some "email_token", 0, 259200⟩ ∧
    get_current_user (create_email_token (some "ann@example.com") 0) 5 [] =
      .httpError 401 "Could not validate credentials" ∧
    decode_refresh_token (create_email_token (some "ann@example.com") 0) 5 =
      .httpError 401 "Invalid scope for token" := by
  have H := wrong_scope_token_rejected
    (create_email_token (some "ann@example.com") 0) 5 []
    ⟨some "ann@example.com", some "email_token", 0, 259200⟩ "email_token"
    (by decide) (by decide)
  exact ⟨by decide, H.1 (by decide), H.2 (by decide)⟩

/-- C5: round trip — decoding a freshly created refresh token for subject
email `e` with the same secret key, before its expiry, returns `e`. -/
theorem refresh_token_roundtrip (e : String) (delta : Option Nat)
    (now now2 : Nat)
    (h : now2 < (create_refresh_token (some e) delta now).payload.exp) :
    decode_refresh_token (create_refresh_token (some e) delta now) now2 =
      .ok e := by
  simp only [create_refresh_token, jwt_encode] at h ⊢
  simp [decode_refresh_token, jwt_decode, h]

/-- C5 witness: the refresh token minted at time 0 for "ann@example.com"
decodes back to "ann@example.com" at time 100 (before the 7-day expiry). -/
theorem refresh_token_roundtrip_witness :
    100 < (create_refresh_token (some "ann@example.com") none 0).payload.exp ∧
    decode_refresh_token (create_refresh_token (some "ann@example.com") none 0)
        100 = .ok "ann@example.com" :=
  ⟨by decide,
   refresh_token_roundtrip "ann@example.com" none 0 100 (by decide)⟩

/-- C6 counterexample: a validly signed, unexpired token with scope
`'access_token'` makes `get_email_from_token` fall through and return `None`
— it does not raise 422 as claimed. -/
theorem email_scope_mismatch_returns_none :
    get_email_from_token (create_access_token (some "ann@example.com") none 0)
        5 = .ok none ∧
    get_email_from_token (create_access_token (some "ann@example.com") none 0)
        5 ≠ .httpError 422 "Invalid token for email verification" := by
  decide

/-- C6 (amended): `get_email_from_token` raises 422 exactly on `JWTError`
(bad signature/algorithm or expiry); on a validly decoded token whose scope
claim differs from `'email_token'` it returns `None` without raising; in no
case does it return an email unless the token decoded with scope
`'email_token'` and that email as subject. -/
theorem email_token_verifier_behavior (t : Token) (now : Nat) :
    (jwt_decode t SECRET_KEY ALGORITHM now = none →
      get_email_from_token t now =
        .httpError 422 "Invalid token for email verification") ∧
    (∀ p s, jwt_decode t SECRET_KEY ALGORITHM now = some p →
      p.scope = some s → s ≠ "email_token" →
      get_email_from_token t now = .ok none) ∧
    (∀ e, get_email_from_token t now = .ok (some e) →
      ∃ p, jwt_decode t SECRET_KEY ALGORITHM now = some p ∧
        p.scope = some "email_token" ∧ p.sub = some e) := by
  refine ⟨?_, ?_, ?_⟩
  · intro h
    simp [get_email_from_token, h]
  · intro p s hdec hscope hs
    simp [get_email_from_token, hdec, hscope, hs]
  · intro e h
    cases hdec : jwt_decode t SECRET_KEY ALGORITHM now with
    | none => simp [get_email_from_token, hdec] at h
    | some p =>
      cases hscope : p.scope with
      | none => simp [get_email_from_token, hdec, hscope] at h
      | some s =>
        by_cases hs : s = "email_token"
        · subst hs
          cases hsub : p.sub with
          | none => simp [get_email_from_token, hdec, hscope, hsub] at h
          | some e2 =>
            have h2 : e2 = e := by
              simpa [get_email_from_token, hdec, hscope, hsub] using h
            exact ⟨p, rfl, hscope, by rw [hsub, h2]⟩
        · simp [get_email_from_token, hdec, hscope, hs] at h

/-- C6 witness: the email token minted at time 0 has expired by time 300000,
so decoding fails and the verifier raises 422. -/
theorem email_token_verifier_behavior_witness :
    jwt_decode (create_email_token (some "ann@example.com") 0) SECRET_KEY
        ALGORITHM 300000 = none ∧
    get_email_from_token (create_email_token (some "ann@example.com") 0)
        300000 = .httpError 422 "Invalid token for email verification" :=
  ⟨by decide,
   (email_token_verifier_behavior (create_email_token (some "ann@example.com")
      0) 300000).1 (by decide)⟩


/-- Helper: the table after `remove` is a sublist of the original table. -/
theorem remove_sublist (cid : Nat) (user : User) :
    ∀ db : List Contact, (remove cid user db).2.Sublist db := by
  intro db
  induction db with
  | nil => simp [remove]
  | cons c rest ih =>
    cases hp : (c.user_id == user.id && c.id == cid) with
    | true =>
      simp only [remove, hp]
      exact (List.Sublist.refl rest).cons c
    | false =>
      simp only [remove, hp]
      exact ih.cons₂ c

/-- Helper: when the owned contact is found, the table splits around the
first matching row, `updateRows` rewrites exactly that row, and `rowsExcept`
collects exactly the other rows. -/
theorem updateRows_found_split (cid : Nat) (body : ContactModel)
    (user : User) :
    ∀ (db : List Contact) (c : Contact),
      get_contact_by_id cid user db = some c →
      ∃ pre post, db = pre ++ c :: post ∧
        (∀ x ∈ pre, (x.user_id == user.id && x.id == cid) = false) ∧
        updateRows cid body user db =
          (some (applyBody body c), pre ++ applyBody body c :: post) ∧
        rowsExcept cid user db = pre ++ post := by
  intro db
  induction db with
  | nil => intro c h; simp [get_contact_by_id] at h
  | cons d rest ih =>
    intro c h
    cases hp : (d.user_id == user.id && d.id == cid) with
    | true =>
      rw [get_contact_by_id, List.find?_cons, hp] at h
      have hdc : d = c := by injection h
      subst hdc
      exact ⟨[], rest, rfl, by simp, by simp [updateRows, hp],
        by simp [rowsExcept, hp]⟩
    | false =>
      rw [get_contact_by_id, List.find?_cons, hp] at h
      obtain ⟨pre, post, hdb, hpre, hupd, hrows⟩ := ih c h
      refine ⟨d :: pre, post, by rw [hdb]; rfl, ?_, ?_, ?_⟩
      · intro x hx
        rcases List.mem_cons.mp hx with rfl | hx2
        · exact hp
        · exact hpre x hx2
      · simp [updateRows, hp, hupd]
      · simp [rowsExcept, hp, hrows]

/-- Helper: the create route preserves per-user email uniqueness: it answers
409, or the commit raises `IntegrityError` (table unchanged), or the
appended row's email occurs nowhere else in the table. -/
theorem create_route_preserves_email_unique (body : ContactModel)
    (user : User) (newId now : Nat) (db : List Contact)
    (h : uniqueEmailPerUser db) :
    uniqueEmailPerUser (create_contact_route body user newId now db).2 := by
  cases hfind : get_contact_by_email body.email user db with
  | some c => simpa [create_contact_route, hfind] using h
  | none =>
    cases hany : db.any fun x => x.email == body.email with
    | true =>
      simpa [create_contact_route, hfind, create_contact, hany] using h
    | false =>
      have hall := List.any_eq_false.mp hany
      have hgoal : (create_contact_route body user newId now db).2 =
          db ++ [Contact.fromBody body user newId now] := by
        simp [create_contact_route, hfind, create_contact, hany]
      rw [hgoal]
      rw [uniqueEmailPerUser, List.pairwise_append]
      refine ⟨h, List.pairwise_singleton _ _, ?_⟩
      intro a ha b hb
      simp only [List.mem_singleton] at hb
      subst hb
      intro _ hemail
      exact hall a ha (by simp [Contact.fromBody] at hemail; simpa using hemail)

/-- Helper: `update` preserves per-user email uniqueness: either it no-ops,
or the commit raises `IntegrityError` (table unchanged), or the rewritten
row's new email occurs in no other row of the table. -/
theorem update_preserves_email_unique (cid : Nat) (body : ContactModel)
    (user : User) (db : List Contact) (h : uniqueEmailPerUser db) :
    uniqueEmailPerUser (update cid body user db).2 := by
  cases hfind : get_contact_by_id cid user db with
  | none => simpa [update, hfind] using h
  | some c =>
    cases hany : (rowsExcept cid user db).any fun x => x.email == body.email
      with
    | true => simpa [update, hfind, hany] using h
    | false =>
      have hall := List.any_eq_false.mp hany
      obtain ⟨pre, post, hdb, hpre, hupd, hrows⟩ :=
        updateRows_found_split cid body user db c hfind
      have h2 : (update cid body user db).2 =
          pre ++ applyBody body c :: post := by
        simp [update, hfind, hany, hupd]
      rw [h2]
      rw [hrows] at hall
      rw [hdb] at h
      rw [uniqueEmailPerUser, List.pairwise_append] at h ⊢
      obtain ⟨hp1, hp2, hcross⟩ := h
      rw [List.pairwise_cons] at hp2 ⊢
      obtain ⟨hc, hp3⟩ := hp2
      have hother : ∀ x, x ∈ pre ∨ x ∈ post → x.email ≠ body.email := by
        intro x hx
        have hm : x ∈ pre ++ post := List.mem_append.mpr hx
        intro he
        exact hall x hm (by simpa using he)
      refine ⟨hp1, ⟨?_, hp3⟩, ?_⟩
      · intro b hb _
        have hb2 := hother b (Or.inr hb)
        simp only [applyBody]
        exact fun he => hb2 he.symm
      · intro a ha b hb
        rcases List.mem_cons.mp hb with rfl | hb2
        · intro _
          simp only [applyBody]
          exact hother a (Or.inl ha)
        · exact hcross a ha b (List.mem_cons_of_mem _ hb2)

/-- C8: starting from a table in which every user has at most one contact
per email, any sequence of contact operations (create via the route,
repository update, repository remove) preserves that invariant — in
particular `update` never makes two contacts of the same user share an
email, because a commit whose new email collides with another stored row is
rejected by the UNIQUE constraint on `contacts.email` and persists
nothing. -/
theorem contact_ops_preserve_email_unique (db : List Contact)
    (h : uniqueEmailPerUser db) :
    (∀ ops : List ContactOp, uniqueEmailPerUser (applyOps db ops)) ∧
    (∀ cid body user, uniqueEmailPerUser (update cid body user db).2) := by
  have step : ∀ (d : List Contact) (op : ContactOp),
      uniqueEmailPerUser d → uniqueEmailPerUser (applyOp d op) := by
    intro d op hd
    cases op with
    | createOp body u newId now =>
      exact create_route_preserves_email_unique body u newId now d hd
    | updateOp cid body u => exact update_preserves_email_unique cid body u d hd
    | removeOp cid u => exact hd.sublist (remove_sublist cid u d)
  have main : ∀ (ops : List ContactOp) (d : List Contact),
      uniqueEmailPerUser d → uniqueEmailPerUser (applyOps d ops) := by
    intro ops
    induction ops with
    | nil => intro d hd; exact hd
    | cons op rest ih => intro d hd; exact ih _ (step d op hd)
  exact ⟨fun ops => main ops db h,
    fun cid body user => update_preserves_email_unique cid body user db h⟩

/-- C8 witness: on user 1's table with emails "a@x.com" and "b@x.com", the
update that tries to duplicate "a@x.com" leaves the invariant intact (the
commit is rejected), as does a whole operation sequence. -/
theorem contact_ops_preserve_email_unique_witness :
    uniqueEmailPerUser [contactA, contactB] ∧
    uniqueEmailPerUser (update 2 bodyA userA [contactA, contactB]).2 :=
  ⟨by decide,
   (contact_ops_preserve_email_unique [contactA, contactB] (by decide)).2
     2 bodyA userA⟩

/-- C9 counterexample: contact 2 is an existing contact owned by user 1, but
updating it with a body carrying contact 1's email "a@x.com" does not set
the body fields: the commit violates the UNIQUE constraint on
`contacts.email`, `IntegrityError` propagates, and the table is unchanged. -/
theorem update_email_collision_unchanged :
    get_contact_by_id 2 userA [contactA, contactB] = some contactB ∧
    update 2 bodyA userA [contactA, contactB] =
      (.integrityError, [contactA, contactB]) := by
  decide

/-- C9 (amended) frame property: on an existing owned contact, when the
body's email collides with no other stored row, `update` sets exactly the
five body fields (`first_name`, `last_name`, `email`, `phone`, `birthday`);
`id`, `user_id` and `created_at` are unchanged; and every other row of the
table is untouched (the table is the original with just that row rewritten).
When the body's email equals another stored row's email, the commit raises
`IntegrityError` and the table is completely unchanged. -/
theorem update_frame_property (cid : Nat) (body : ContactModel)
    (user : User) (db : List Contact) (c : Contact)
    (h : get_contact_by_id cid user db = some c) :
    ((∀ x ∈ rowsExcept cid user db, x.email ≠ body.email) →
      (update cid body user db).1 = .ok (some (applyBody body c)) ∧
      (applyBody body c).first_name = body.first_name ∧
      (applyBody body c).last_name = body.last_name ∧
      (applyBody body c).email = body.email ∧
      (applyBody body c).phone = body.phone ∧
      (applyBody body c).birthday = body.birthday ∧
      (applyBody body c).id = c.id ∧
      (applyBody body c).user_id = c.user_id ∧
      (applyBody body c).created_at = c.created_at ∧
      ∃ pre post, db = pre ++ c :: post ∧
        rowsExcept cid user db = pre ++ post ∧
        update cid body user db =
          (.ok (some (applyBody body c)),
            pre ++ applyBody body c :: post)) ∧
    ((∃ x ∈ rowsExcept cid user db, x.email = body.email) →
      update cid body user db = (.integrityError, db)) := by
  constructor
  · intro hno
    have hany : ((rowsExcept cid user db).any
        fun x => x.email == body.email) = false := by
      rw [List.any_eq_false]
      intro x hx
      simpa using hno x hx
    obtain ⟨pre, post, hdb, hpre, hupd, hrows⟩ :=
      updateRows_found_split cid body user db c h
    have hfull : update cid body user db =
        (.ok (some (applyBody body c)), pre ++ applyBody body c :: post) := by
      simp [update, h, hany, hupd]
    exact ⟨by rw [hfull], rfl, rfl, rfl, rfl, rfl, rfl, rfl, rfl,
      pre, post, hdb, hrows, hfull⟩
  · intro hex
    have hany : ((rowsExcept cid user db).any
        fun x => x.email == body.email) = true := by
      rw [List.any_eq_true]
      obtain ⟨x, hx, he⟩ := hex
      exact ⟨x, hx, by simpa using he⟩
    simp [update, h, hany]

/-- C9 witness: updating contact 1 of user 1 with the fresh-email body
`bodyD` rewrites only that row; its `user_id` is preserved. -/
theorem update_frame_property_witness :
    get_contact_by_id 1 userA [contactA, contactB] = some contactA ∧
    contactB.email ≠ bodyD.email ∧
    update 1 bodyD userA [contactA, contactB] =
      (.ok (some (applyBody bodyD contactA)),
        [applyBody bodyD contactA, contactB]) ∧
    (applyBody bodyD contactA).user_id = contactA.user_id := by
  have H := (update_frame_property 1 bodyD userA [contactA, contactB]
    contactA (by decide)).1 (by decide)
  exact ⟨by decide, by decide, by decide, H.2.2.2.2.2.2.2.1⟩
